import Mathlib

/-!
Verification of the `pkg/whatsapp` catalog client (`catalog.go`).

The Go file is a stateless HTTP client: each operation builds a URL by
string formatting, optionally builds a flat `map[string]string` body,
performs exactly one call to the external transport collaborator
`doRequest`, and decodes the JSON response.  We embed it shallowly:

* the transport is an oracle `Transport : Request → Except String RespBody`
  (the spec treats `doRequest` as an external collaborator that already
  maps non-2xx statuses to errors and returns the raw response bytes);
* response bytes are modelled as `RespBody`: either syntactically
  malformed JSON, or a parsed `Json` value — the dichotomy that
  `encoding/json.Unmarshal` decides;
* each operation returns its Go results (zero values paired with an
  optional error, mirroring Go `(T, error)` return values) together with the
  list of transport requests it issued, so that "exactly one call, no
  retry" is provable rather than assumed.
-/

namespace Whatomate

/-- HTTP methods used by the catalog client. -/
inductive Method where
  | get
  | post
  | delete
deriving DecidableEq, Repr

/-- Modelled from the spec: `Account` identifies the business context —
API version string, business identifier, access token (the Go struct is
declared outside `catalog.go`). -/
structure Account where
  APIVersion : String
  BusinessID : String
  AccessToken : String
deriving DecidableEq, Repr

/-- Modelled from the spec: the only observable datum of the client in
`catalog.go` is `getBaseURL()`, the base-URL resolution delegated to the
transport plumbing; we model it as a field. -/
structure Client where
  baseURL : String
deriving DecidableEq, Repr

/-- Caller-supplied product fields, from the `ProductInput` usage in
`catalog.go`: name, integer minor-unit price (`int64`), currency code,
destination URL, image URL, retailer-assigned id, optional description. -/
structure ProductInput where
  Name : String
  Price : Int
  Currency : String
  URL : String
  ImageURL : String
  RetailerID : String
  Description : String
deriving DecidableEq, Repr

/-- Modelled from the spec: `CatalogInfo` is "id + descriptive fields"
returned when listing catalogs (declared outside `catalog.go`). -/
structure CatalogInfo where
  ID : String
  Name : String
deriving DecidableEq, Repr

/-- Modelled from the spec: `ProductInfo` is the decoded product record
with the same fields as `ProductInput` plus the platform-assigned id
(declared outside `catalog.go`). -/
structure ProductInfo where
  ID : String
  Name : String
  Price : Int
  Currency : String
  URL : String
  ImageURL : String
  RetailerID : String
  Description : String
deriving DecidableEq, Repr

/-- JSON values, for modelling decoded response bodies. -/
inductive Json where
  | null
  | bool (b : Bool)
  | num (n : Int)
  | str (s : String)
  | arr (elems : List Json)
  | obj (fields : List (String × Json))

/-- Response bytes as seen by `json.Unmarshal`: either not valid JSON
(carrying the opaque text of the JSON syntax error) or a parsed value. -/
inductive RespBody where
  | malformed (msg : String)
  | json (j : Json)

/-- One outbound HTTP request handed to the transport collaborator
`doRequest(ctx, method, url, body, accessToken)`; the cancellation
context is forwarded unmodified and carries no data we model.  Bodies
are the flat string-keyed maps the client builds (`none` models the Go
`nil` body). -/
structure Request where
  method : Method
  url : String
  body : Option (List (String × String))
  token : String
deriving DecidableEq, Repr

/-- Modelled from the spec: the transport collaborator contract
`doRequest(...) -> (responseBytes, error)` — it executes the call and
maps transport failures and non-2xx statuses to an error (modelled as an
opaque string). -/
abbrev Transport : Type := Request → Except String RespBody

/-- Errors surfaced by the catalog client, split into the two spec
kinds: a `RequestError` propagated unchanged from the transport, or a
`DecodeError` produced by `fmt.Errorf("failed to parse response: %w", err)`. -/
inductive CatalogError where
  | request (e : String)
  | decode (msg : String)
deriving DecidableEq, Repr

/-- Fueled form of the repeated-division digit loop of the Go function
`strconv.FormatInt(i, 10)`; the fuel only bounds the number of
iterations so that the function is structurally recursive, and
`formatNatDigits` always supplies enough of it. -/
def formatNatLoop : Nat → Nat → List Char → List Char
  | 0, _, acc => acc
  | fuel + 1, n, acc =>
    if n < 10 then Nat.digitChar n :: acc
    else formatNatLoop fuel (n / 10) (Nat.digitChar (n % 10) :: acc)

/-- Digits of `n` in base 10, most significant first, accumulated onto
`acc`; models the digit loop of `strconv.FormatInt(i, 10)`. -/
def formatNatDigits (n : Nat) (acc : List Char) : List Char :=
  formatNatLoop (n + 1) n acc

/-- Model of `strconv.FormatInt(i, 10)`: base-10 representation, with a
leading minus sign for negative values. -/
def formatInt (i : Int) : String :=
  if i < 0 then "-" ++ String.mk (formatNatDigits (-i).toNat [])
  else String.mk (formatNatDigits i.toNat [])

/-- URL for the catalogs collection of a business —
`fmt.Sprintf("%s/%s/%s/owned_product_catalogs", baseURL, APIVersion, BusinessID)`. -/
def buildCatalogsURL (c : Client) (a : Account) : String :=
  c.baseURL ++ "/" ++ a.APIVersion ++ "/" ++ a.BusinessID ++ "/owned_product_catalogs"

/-- URL for the products collection of a catalog —
`fmt.Sprintf("%s/%s/%s/products", baseURL, APIVersion, catalogID)`. -/
def buildCatalogProductsURL (c : Client) (a : Account) (catalogID : String) : String :=
  c.baseURL ++ "/" ++ a.APIVersion ++ "/" ++ catalogID ++ "/products"

/-- URL for a single product resource —
`fmt.Sprintf("%s/%s/%s", baseURL, APIVersion, productID)`. -/
def buildProductURL (c : Client) (a : Account) (productID : String) : String :=
  c.baseURL ++ "/" ++ a.APIVersion ++ "/" ++ productID

/-- Uppercase hexadecimal digit, as used by the percent-encoder of
`net/url` (the Go constant `"0123456789ABCDEF"`). -/
def upperHexChar (n : Nat) : Char :=
  if n < 10 then Nat.digitChar n
  else if n = 10 then 'A'
  else if n = 11 then 'B'
  else if n = 12 then 'C'
  else if n = 13 then 'D'
  else if n = 14 then 'E'
  else 'F'

/-- UTF-8 bytes of a character (percent-encoding in `net/url` operates
on the UTF-8 bytes of the string). -/
def utf8Bytes (ch : Char) : List Nat :=
  let n := ch.toNat
  if n < 0x80 then [n]
  else if n < 0x800 then [0xC0 + n / 0x40, 0x80 + n % 0x40]
  else if n < 0x10000 then
    [0xE0 + n / 0x1000, 0x80 + n / 0x40 % 0x40, 0x80 + n % 0x40]
  else
    [0xF0 + n / 0x40000, 0x80 + n / 0x1000 % 0x40, 0x80 + n / 0x40 % 0x40,
      0x80 + n % 0x40]

/-- Characters `net/url.shouldEscape` leaves unescaped in a query
component: ASCII alphanumerics and `-`, `_`, `.`, `~`. -/
def isUnreservedQueryChar (ch : Char) : Bool :=
  ('A' ≤ ch && ch ≤ 'Z') || ('a' ≤ ch && ch ≤ 'z') || ('0' ≤ ch && ch ≤ '9') ||
    ch = '-' || ch = '_' || ch = '.' || ch = '~'

/-- Escape of one character under `net/url.QueryEscape`: unreserved
characters pass through, a space becomes `+`, anything else becomes the
percent-encoding of its UTF-8 bytes with uppercase hex digits. -/
def escapeQueryChar (ch : Char) : String :=
  if isUnreservedQueryChar ch then String.mk [ch]
  else if ch = ' ' then "+"
  else String.join ((utf8Bytes ch).map fun b =>
    String.mk ['%', upperHexChar (b / 16), upperHexChar (b % 16)])

/-- Model of `net/url.QueryEscape`. -/
def goQueryEscape (s : String) : String :=
  String.join (s.data.map escapeQueryChar)

/-- Insert a key-value pair into a key-sorted association list. -/
def insertByKey (p : String × String) : List (String × String) → List (String × String)
  | [] => [p]
  | q :: qs => if p.1 ≤ q.1 then p :: q :: qs else q :: insertByKey p qs

/-- Sort an association list by key, as `url.Values.Encode` sorts its
keys before emitting them. -/
def sortByKey : List (String × String) → List (String × String)
  | [] => []
  | p :: ps => insertByKey p (sortByKey ps)

/-- Model of `url.Values.Encode()` for single-valued parameters (the
client only ever calls `params.Add` once per key): keys are sorted, each
pair is emitted as `escapedKey=escapedValue`, pairs are joined by `&`. -/
def urlValuesEncode (vs : List (String × String)) : String :=
  String.intercalate "&" ((sortByKey vs).map fun kv =>
    goQueryEscape kv.1 ++ "=" ++ goQueryEscape kv.2)

/-- Lookup of an object field under `encoding/json` semantics: with
duplicate keys the last occurrence wins (later values overwrite earlier
ones during decoding). -/
def jsonObjLookup (fields : List (String × Json)) (k : String) : Option Json :=
  fields.reverse.lookup k

/-- Model of `json.Unmarshal(data, &resp)` for the single-resource
response structs (the anonymous `struct{ ID string }` of `CreateCatalog`
and — modelled from the spec envelope, the struct being declared outside
`catalog.go` — `ProductCreateResponse`): malformed bytes are a syntax
error; a JSON object yields its `id` string field, the zero value `""`
when the field is absent or `null`; `null` leaves the struct at its zero
value; any other shape is a type error. -/
def unmarshalIDResponse : RespBody → Except String String
  | .malformed msg => .error msg
  | .json .null => .ok ""
  | .json (.obj fields) =>
    match jsonObjLookup fields "id" with
    | none => .ok ""
    | some .null => .ok ""
    | some (.str s) => .ok s
    | some _ => .error "json: cannot unmarshal value into Go struct field .id of type string"
  | .json _ => .error "json: cannot unmarshal value into Go value of type struct"

/-- String-typed struct field under `encoding/json`: absent or `null`
leaves the zero value, a string decodes, anything else is a type error. -/
def getStrField (fields : List (String × Json)) (k : String) : Except String String :=
  match jsonObjLookup fields k with
  | none => .ok ""
  | some .null => .ok ""
  | some (.str s) => .ok s
  | some _ => .error ("json: cannot unmarshal value into Go struct field ." ++ k)

/-- Integer-typed struct field under `encoding/json`: absent or `null`
leaves the zero value, a number decodes, anything else is a type error. -/
def getIntField (fields : List (String × Json)) (k : String) : Except String Int :=
  match jsonObjLookup fields k with
  | none => .ok 0
  | some .null => .ok 0
  | some (.num n) => .ok n
  | some _ => .error ("json: cannot unmarshal value into Go struct field ." ++ k)

/-- Modelled from the spec: one `CatalogInfo` element decoded from the
`{data: [...]}` envelope. -/
def decodeCatalogInfo : Json → Except String CatalogInfo
  | .null => .ok ⟨"", ""⟩
  | .obj fields => do
    let id ← getStrField fields "id"
    let name ← getStrField fields "name"
    .ok ⟨id, name⟩
  | _ => .error "json: cannot unmarshal value into Go value of type CatalogInfo"

/-- Modelled from the spec: one `ProductInfo` element decoded from the
`{data: [...]}` envelope, with the same fields as `ProductInput` plus
the assigned id. -/
def decodeProductInfo : Json → Except String ProductInfo
  | .null => .ok ⟨"", "", 0, "", "", "", "", ""⟩
  | .obj fields => do
    let id ← getStrField fields "id"
    let name ← getStrField fields "name"
    let price ← getIntField fields "price"
    let currency ← getStrField fields "currency"
    let url ← getStrField fields "url"
    let imageURL ← getStrField fields "image_url"
    let retailerID ← getStrField fields "retailer_id"
    let description ← getStrField fields "description"
    .ok ⟨id, name, price, currency, url, imageURL, retailerID, description⟩
  | _ => .error "json: cannot unmarshal value into Go value of type ProductInfo"

/-- Modelled from the spec: `json.Unmarshal` into a collection envelope
struct `{ Data []T }` (`CatalogListResponse` / `ProductListResponse`,
declared outside `catalog.go`): malformed bytes are a syntax error;
`null` or an object without `data` leaves the nil slice; a `data` array
decodes elementwise; any other shape is a type error. -/
def unmarshalDataResponse (decodeElem : Json → Except String α) :
    RespBody → Except String (List α)
  | .malformed msg => .error msg
  | .json .null => .ok []
  | .json (.obj fields) =>
    match jsonObjLookup fields "data" with
    | none => .ok []
    | some .null => .ok []
    | some (.arr elems) => elems.mapM decodeElem
    | some _ => .error "json: cannot unmarshal value into Go struct field .data"
  | .json _ => .error "json: cannot unmarshal value into Go value of type struct"

/-- Request issued by `CreateCatalog`: POST to the catalogs URL with
body `map[string]string{"name": name}`. -/
def CreateCatalogRequest (c : Client) (a : Account) (name : String) : Request :=
  ⟨Method.post, buildCatalogsURL c a, some [("name", name)], a.AccessToken⟩

/-- Model of `Client.CreateCatalog`: one `doRequest` call, then decode
of the `id` field; returns the Go pair (result, error) together with the
list of requests issued. -/
def CreateCatalog (t : Transport) (c : Client) (a : Account) (name : String) :
    (String × Option CatalogError) × List Request :=
  let req := CreateCatalogRequest c a name
  match t req with
  | .error e => (("", some (.request e)), [req])
  | .ok respBody =>
    match unmarshalIDResponse respBody with
    | .error msg => (("", some (.decode ("failed to parse response: " ++ msg))), [req])
    | .ok id => ((id, none), [req])

/-- Request issued by `ListCatalogs`: GET on the catalogs URL with a
`nil` body. -/
def ListCatalogsRequest (c : Client) (a : Account) : Request :=
  ⟨Method.get, buildCatalogsURL c a, none, a.AccessToken⟩

/-- Model of `Client.ListCatalogs`: one `doRequest` call, then decode of
the `{data: [...]}` envelope into `CatalogInfo` records. -/
def ListCatalogs (t : Transport) (c : Client) (a : Account) :
    (List CatalogInfo × Option CatalogError) × List Request :=
  let req := ListCatalogsRequest c a
  match t req with
  | .error e => (([], some (.request e)), [req])
  | .ok respBody =>
    match unmarshalDataResponse decodeCatalogInfo respBody with
    | .error msg => (([], some (.decode ("failed to parse response: " ++ msg))), [req])
    | .ok data => ((data, none), [req])

/-- Request issued by `DeleteCatalog`: DELETE on the URL the method
formats inline, `fmt.Sprintf("%s/%s/%s", baseURL, APIVersion, catalogID)`. -/
def DeleteCatalogRequest (c : Client) (a : Account) (catalogID : String) : Request :=
  ⟨Method.delete, c.baseURL ++ "/" ++ a.APIVersion ++ "/" ++ catalogID, none, a.AccessToken⟩

/-- Model of `Client.DeleteCatalog`: one `doRequest` call, the response
body is discarded and only the error returned. -/
def DeleteCatalog (t : Transport) (c : Client) (a : Account) (catalogID : String) :
    Option CatalogError × List Request :=
  let req := DeleteCatalogRequest c a catalogID
  match t req with
  | .error e => (some (.request e), [req])
  | .ok _ => (none, [req])

/-- Fixed field-selection list `ListCatalogProducts` passes as the
`fields` query parameter. -/
def productFieldsParam : String :=
  "id,name,price,currency,url,image_url,retailer_id,description"

/-- Request issued by `ListCatalogProducts`: GET on the products URL
with `"?" + params.Encode()` appended, where `params` holds the single
`fields` parameter. -/
def ListCatalogProductsRequest (c : Client) (a : Account) (catalogID : String) : Request :=
  ⟨Method.get,
    buildCatalogProductsURL c a catalogID ++ "?" ++
      urlValuesEncode [("fields", productFieldsParam)],
    none, a.AccessToken⟩

/-- Model of `Client.ListCatalogProducts`: one `doRequest` call, then
decode of the `{data: [...]}` envelope into `ProductInfo` records. -/
def ListCatalogProducts (t : Transport) (c : Client) (a : Account) (catalogID : String) :
    (List ProductInfo × Option CatalogError) × List Request :=
  let req := ListCatalogProductsRequest c a catalogID
  match t req with
  | .error e => (([], some (.request e)), [req])
  | .ok respBody =>
    match unmarshalDataResponse decodeProductInfo respBody with
    | .error msg => (([], some (.decode ("failed to parse response: " ++ msg))), [req])
    | .ok data => ((data, none), [req])

/-- Body built by `CreateProduct`: the six-key map literal with
`price := strconv.FormatInt(product.Price, 10)`, plus `description`
added only when `product.Description != ""`. -/
def CreateProductBody (p : ProductInput) : List (String × String) :=
  let base := [("name", p.Name), ("price", formatInt p.Price), ("currency", p.Currency),
    ("url", p.URL), ("image_url", p.ImageURL), ("retailer_id", p.RetailerID)]
  if p.Description ≠ "" then base ++ [("description", p.Description)] else base

/-- Request issued by `CreateProduct`: POST of the product body to the
products URL of the catalog. -/
def CreateProductRequest (c : Client) (a : Account) (catalogID : String)
    (p : ProductInput) : Request :=
  ⟨Method.post, buildCatalogProductsURL c a catalogID, some (CreateProductBody p),
    a.AccessToken⟩

/-- Model of `Client.CreateProduct`: one `doRequest` call, then decode
of the returned `id`. -/
def CreateProduct (t : Transport) (c : Client) (a : Account) (catalogID : String)
    (p : ProductInput) : (String × Option CatalogError) × List Request :=
  let req := CreateProductRequest c a catalogID p
  match t req with
  | .error e => (("", some (.request e)), [req])
  | .ok respBody =>
    match unmarshalIDResponse respBody with
    | .error msg => (("", some (.decode ("failed to parse response: " ++ msg))), [req])
    | .ok id => ((id, none), [req])

/-- Partial-update body built by `UpdateProduct`: each key is inserted
only under the corresponding guard of the source (`!= ""` for the five
string fields, `> 0` for the price). -/
def UpdateProductBody (p : ProductInput) : List (String × String) :=
  (if p.Name ≠ "" then [("name", p.Name)] else []) ++
    (if p.Price > 0 then [("price", formatInt p.Price)] else []) ++
    (if p.Currency ≠ "" then [("currency", p.Currency)] else []) ++
    (if p.URL ≠ "" then [("url", p.URL)] else []) ++
    (if p.ImageURL ≠ "" then [("image_url", p.ImageURL)] else []) ++
    (if p.Description ≠ "" then [("description", p.Description)] else [])

/-- Request issued by `UpdateProduct`: POST of the partial body to the
single-product URL. -/
def UpdateProductRequest (c : Client) (a : Account) (productID : String)
    (p : ProductInput) : Request :=
  ⟨Method.post, buildProductURL c a productID, some (UpdateProductBody p), a.AccessToken⟩

/-- Model of `Client.UpdateProduct`: one `doRequest` call, the response
body is discarded and only the error returned. -/
def UpdateProduct (t : Transport) (c : Client) (a : Account) (productID : String)
    (p : ProductInput) : Option CatalogError × List Request :=
  let req := UpdateProductRequest c a productID p
  match t req with
  | .error e => (some (.request e), [req])
  | .ok _ => (none, [req])

/-- Request issued by `DeleteProduct`: DELETE on the single-product URL. -/
def DeleteProductRequest (c : Client) (a : Account) (productID : String) : Request :=
  ⟨Method.delete, buildProductURL c a productID, none, a.AccessToken⟩

/-- Model of `Client.DeleteProduct`: one `doRequest` call, the response
body is discarded and only the error returned. -/
def DeleteProduct (t : Transport) (c : Client) (a : Account) (productID : String) :
    Option CatalogError × List Request :=
  let req := DeleteProductRequest c a productID
  match t req with
  | .error e => (some (.request e), [req])
  | .ok _ => (none, [req])

/-- Value of a digit string read in base 10 (each character taken as
its distance from the code point of the zero digit). -/
def decodeDecimal (l : List Char) : Nat :=
  l.foldl (fun a ch => 10 * a + (ch.toNat - 48)) 0

/-- The string is the exact base-10 decimal representation of `n`:
nonempty, made of decimal digit characters only, without a leading zero,
and reading it back in base 10 gives `n`.  These conditions determine
the string uniquely, and they exclude scientific notation, fractional
strings and sign characters outright. -/
def IsDecimalRepOf (s : String) (n : Nat) : Prop :=
  s.data ≠ [] ∧ (∀ ch ∈ s.data, 48 ≤ ch.toNat ∧ ch.toNat ≤ 57) ∧
    s.data.head? ≠ some '0' ∧ decodeDecimal s.data = n

/-- Concrete client for witnesses. -/
def exampleClient : Client := ⟨"https://graph.example"⟩

/-- Concrete account for witnesses. -/
def exampleAccount : Account := ⟨"v20.0", "biz42", "token-1"⟩

/-- Concrete product input of the worked example in the spec. -/
def exampleInput : ProductInput :=
  ⟨"Shirt", 1999, "USD", "https://x/y", "https://x/img.png", "sku-1", ""⟩

/-- Transport stub answering every request with `{"id": "pid_1"}`. -/
def exampleIdTransport : Transport :=
  fun _ => Except.ok (.json (.obj [("id", Json.str "pid_1")]))

/-- Transport stub answering every request with the valid JSON object
`{}`, which has no `id` field. -/
def exampleEmptyObjTransport : Transport :=
  fun _ => Except.ok (.json (.obj []))

/-- Transport stub failing every request with an opaque error. -/
def exampleFailTransport : Transport :=
  fun _ => Except.error "boom"

/-- Transport stub answering every request with bytes that are not
valid JSON. -/
def exampleMalformedTransport : Transport :=
  fun _ => Except.ok (.malformed "unexpected end of JSON input")

/-- Result of the digit loop does not depend on the fuel, as long as
the fuel exceeds the number being formatted. -/
theorem formatNatLoop_indep :
    ∀ (f1 n f2 : Nat) (acc : List Char), n < f1 → n < f2 →
      formatNatLoop f1 n acc = formatNatLoop f2 n acc := by
  intro f1
  induction f1 with
  | zero => intro n f2 acc h1 _; omega
  | succ f ih =>
    intro n f2 acc h1 h2
    match f2, h2 with
    | f2 + 1, h2 =>
      simp only [formatNatLoop]
      by_cases h10 : n < 10
      · simp [h10]
      · simp only [h10, if_false]
        exact ih (n / 10) f2 _ (by omega) (by omega)

/-- Unfolding equation of `formatNatDigits`, in the shape of the Go
loop body. -/
theorem formatNatDigits_eq (n : Nat) (acc : List Char) :
    formatNatDigits n acc =
      if n < 10 then Nat.digitChar n :: acc
      else formatNatDigits (n / 10) (Nat.digitChar (n % 10) :: acc) := by
  unfold formatNatDigits
  simp only [formatNatLoop]
  by_cases h : n < 10
  · simp [h]
  · simp only [h, if_false]
    exact formatNatLoop_indep n (n / 10) (n / 10 + 1) _ (by omega) (by omega)

/-- Digits accumulate on the right of the result. -/
theorem formatNatDigits_append (n : Nat) :
    ∀ acc, formatNatDigits n acc = formatNatDigits n [] ++ acc := by
  induction n using Nat.strong_induction_on with
  | _ n ih =>
    intro acc
    rw [formatNatDigits_eq n acc, formatNatDigits_eq n []]
    by_cases h : n < 10
    · simp [h]
    · simp only [h, if_false]
      rw [ih (n / 10) (by omega) (Nat.digitChar (n % 10) :: acc),
        ih (n / 10) (by omega) [Nat.digitChar (n % 10)]]
      simp

/-- Code point of a digit character produced by `Nat.digitChar` below 10. -/
theorem digitChar_toNat (n : Nat) (h : n < 10) : (Nat.digitChar n).toNat = 48 + n := by
  interval_cases n <;> rfl

/-- Reading a digit string extended by one digit on the right. -/
theorem decodeDecimal_append_singleton (l : List Char) (d : Char) :
    decodeDecimal (l ++ [d]) = 10 * decodeDecimal l + (d.toNat - 48) := by
  unfold decodeDecimal
  rw [List.foldl_append]
  rfl

/-- The digit loop emits the base-10 representation: reading its output
back in base 10 recovers the number. -/
theorem decodeDecimal_formatNatDigits (n : Nat) :
    decodeDecimal (formatNatDigits n []) = n := by
  induction n using Nat.strong_induction_on with
  | _ n ih =>
    rw [formatNatDigits_eq]
    by_cases h : n < 10
    · simp only [h, if_true]
      have hd := digitChar_toNat n h
      simp [decodeDecimal, List.foldl, hd]
    · simp only [h, if_false]
      rw [formatNatDigits_append, decodeDecimal_append_singleton,
        ih (n / 10) (by omega), digitChar_toNat (n % 10) (by omega)]
      omega

/-- Every character the digit loop emits is a decimal digit. -/
theorem formatNatDigits_digits (n : Nat) :
    ∀ ch ∈ formatNatDigits n [], 48 ≤ ch.toNat ∧ ch.toNat ≤ 57 := by
  induction n using Nat.strong_induction_on with
  | _ n ih =>
    intro ch hch
    rw [formatNatDigits_eq] at hch
    by_cases h : n < 10
    · simp only [h, if_true, List.mem_singleton] at hch
      subst hch
      rw [digitChar_toNat n h]
      omega
    · simp only [h, if_false] at hch
      rw [formatNatDigits_append] at hch
      rcases List.mem_append.mp hch with h1 | h2
      · exact ih (n / 10) (by omega) ch h1
      · simp only [List.mem_singleton] at h2
        subst h2
        rw [digitChar_toNat (n % 10) (by omega)]
        omega

/-- The digit loop never returns the empty list. -/
theorem formatNatDigits_ne_nil (n : Nat) : formatNatDigits n [] ≠ [] := by
  rw [formatNatDigits_eq]
  by_cases h : n < 10
  · simp [h]
  · simp only [h, if_false]
    rw [formatNatDigits_append]
    simp

/-- For a positive number the digit loop emits no leading zero. -/
theorem formatNatDigits_head (n : Nat) :
    0 < n → (formatNatDigits n []).head? ≠ some '0' := by
  induction n using Nat.strong_induction_on with
  | _ n ih =>
    intro hpos
    rw [formatNatDigits_eq]
    by_cases h : n < 10
    · simp only [h, if_true, List.head?_cons]
      intro hc
      have hc2 : Nat.digitChar n = '0' := by injection hc
      interval_cases n <;> simp_all [Nat.digitChar]
    · simp only [h, if_false]
      rw [formatNatDigits_append]
      have hne := formatNatDigits_ne_nil (n / 10)
      have hh := ih (n / 10) (by omega) (by omega)
      cases hl : formatNatDigits (n / 10) [] with
      | nil => exact absurd hl hne
      | cons x xs =>
        rw [hl] at hh
        simpa using hh

/-- Decimal digit characters are never a sign, an exponent marker or a
decimal point. -/
theorem digit_char_not_special (ch : Char) (h1 : 48 ≤ ch.toNat) (h2 : ch.toNat ≤ 57) :
    ch ≠ 'e' ∧ ch ≠ 'E' ∧ ch ≠ '.' ∧ ch ≠ '-' ∧ ch ≠ '+' := by
  refine ⟨?_, ?_, ?_, ?_, ?_⟩ <;> (rintro rfl; revert h1 h2; decide)

/-- Positive integers are formatted without the sign branch. -/
theorem formatInt_pos (i : Int) (h : 0 < i) :
    formatInt i = String.mk (formatNatDigits i.toNat []) := by
  unfold formatInt
  rw [if_neg (by omega)]

/-- The formatted positive integer is its exact decimal representation. -/
theorem formatInt_isDecimalRepOf (i : Int) (h : 0 < i) :
    IsDecimalRepOf (formatInt i) i.toNat := by
  rw [formatInt_pos i h]
  refine ⟨formatNatDigits_ne_nil i.toNat, formatNatDigits_digits i.toNat,
    formatNatDigits_head i.toNat (by omega), decodeDecimal_formatNatDigits i.toNat⟩

/-- C1: for every `ProductInput` with positive price, `CreateProduct`
transmits the `price` field as the exact base-10 decimal-string
representation of the integer minor-unit amount — digit characters
only, hence never scientific notation, a fractional string, or a
floating-point representation. -/
theorem createProduct_price_decimal (c : Client) (a : Account) (catalogID : String)
    (p : ProductInput) (hpos : 0 < p.Price) :
    (CreateProductRequest c a catalogID p).body = some (CreateProductBody p) ∧
    (CreateProductBody p).lookup "price" = some (formatInt p.Price) ∧
    IsDecimalRepOf (formatInt p.Price) p.Price.toNat ∧
    ∀ ch ∈ (formatInt p.Price).data,
      ch ≠ 'e' ∧ ch ≠ 'E' ∧ ch ≠ '.' ∧ ch ≠ '-' ∧ ch ≠ '+' := by
  refine ⟨rfl, ?_, formatInt_isDecimalRepOf p.Price hpos, ?_⟩
  · by_cases hd : p.Description = "" <;> simp [CreateProductBody, hd, List.lookup]
  · intro ch hch
    have hb := (formatInt_isDecimalRepOf p.Price hpos).2.1 ch hch
    exact digit_char_not_special ch hb.1 hb.2

/-- Witness for C1 at the Shirt example, whose price is 1999. -/
theorem createProduct_price_decimal_witness :
    (CreateProductRequest exampleClient exampleAccount "cat123" exampleInput).body
        = some (CreateProductBody exampleInput) ∧
    (CreateProductBody exampleInput).lookup "price" = some (formatInt exampleInput.Price) ∧
    IsDecimalRepOf (formatInt exampleInput.Price) exampleInput.Price.toNat ∧
    ∀ ch ∈ (formatInt exampleInput.Price).data,
      ch ≠ 'e' ∧ ch ≠ 'E' ∧ ch ≠ '.' ∧ ch ≠ '-' ∧ ch ≠ '+' :=
  createProduct_price_decimal exampleClient exampleAccount "cat123" exampleInput
    (by decide)

/-- C3: the worked example — `CreateProduct` on catalog `cat123` with
the Shirt input issues a POST to the products URL of `cat123` whose
body is exactly the six-key map of the spec with no `description` key,
and returns the `id` field of the JSON response `{"id": "pid_1"}`; in
general the `description` key is present iff the description field is
non-empty. -/
theorem createProduct_example (c : Client) (a : Account) :
    CreateProduct exampleIdTransport c a "cat123" exampleInput =
      (("pid_1", none),
        [⟨Method.post, buildCatalogProductsURL c a "cat123",
          some [("name", "Shirt"), ("price", "1999"), ("currency", "USD"),
            ("url", "https://x/y"), ("image_url", "https://x/img.png"),
            ("retailer_id", "sku-1")], a.AccessToken⟩]) ∧
    ∀ q : ProductInput,
      ("description" ∈ (CreateProductBody q).map Prod.fst) ↔ q.Description ≠ "" := by
  refine ⟨rfl, ?_⟩
  intro q
  by_cases hd : q.Description = "" <;> simp [CreateProductBody, hd]

/-- C5: the URL `ListCatalogProducts` requests is the products URL of
the catalog with the fixed `fields` selection parameter appended —
`fields=id,name,price,currency,url,image_url,retailer_id,description`,
percent-encoded by `url.Values.Encode` (commas become `%2C`) — and the
appended query string is one fixed constant, independent of the catalog
identifier. -/
theorem listCatalogProducts_fixed_query (c : Client) (a : Account) (catalogID : String) :
    (ListCatalogProductsRequest c a catalogID).url =
      buildCatalogProductsURL c a catalogID ++ "?" ++
        urlValuesEncode [("fields", productFieldsParam)] ∧
    productFieldsParam = "id,name,price,currency,url,image_url,retailer_id,description" ∧
    urlValuesEncode [("fields", productFieldsParam)] =
      "fields=" ++ goQueryEscape productFieldsParam ∧
    urlValuesEncode [("fields", productFieldsParam)] =
      "fields=id%2Cname%2Cprice%2Ccurrency%2Curl%2Cimage_url%2Cretailer_id%2Cdescription" :=
  ⟨rfl, rfl, by decide, by decide⟩

/-- C6: the request URLs are exactly
`{baseURL}/{apiVersion}/{businessID}/owned_product_catalogs` for the
catalog collection, `{baseURL}/{apiVersion}/{catalogID}/products` for
the product collection (`ListCatalogProducts` adds its query string
after it), and `{baseURL}/{apiVersion}/{id}` for a single resource. -/
theorem request_url_shapes (c : Client) (a : Account)
    (name catalogID productID : String) (p : ProductInput) :
    (CreateCatalogRequest c a name).url =
      c.baseURL ++ "/" ++ a.APIVersion ++ "/" ++ a.BusinessID ++ "/owned_product_catalogs" ∧
    (ListCatalogsRequest c a).url =
      c.baseURL ++ "/" ++ a.APIVersion ++ "/" ++ a.BusinessID ++ "/owned_product_catalogs" ∧
    (CreateProductRequest c a catalogID p).url =
      c.baseURL ++ "/" ++ a.APIVersion ++ "/" ++ catalogID ++ "/products" ∧
    (ListCatalogProductsRequest c a catalogID).url =
      c.baseURL ++ "/" ++ a.APIVersion ++ "/" ++ catalogID ++ "/products" ++ "?" ++
        urlValuesEncode [("fields", productFieldsParam)] ∧
    (DeleteCatalogRequest c a catalogID).url =
      c.baseURL ++ "/" ++ a.APIVersion ++ "/" ++ catalogID ∧
    (UpdateProductRequest c a productID p).url =
      c.baseURL ++ "/" ++ a.APIVersion ++ "/" ++ productID ∧
    (DeleteProductRequest c a productID).url =
      c.baseURL ++ "/" ++ a.APIVersion ++ "/" ++ productID :=
  ⟨rfl, rfl, rfl, rfl, rfl, rfl, rfl⟩

/-- C10: for the same identifier, `DeleteCatalog`, `DeleteProduct` and
`UpdateProduct` all address the same single-resource URL
`{baseURL}/{apiVersion}/{id}`; the three are told apart only by the
identifier and the HTTP method. -/
theorem single_resource_url_coincidence (c : Client) (a : Account) (s : String)
    (p : ProductInput) :
    (DeleteCatalogRequest c a s).url = (DeleteProductRequest c a s).url ∧
    (DeleteCatalogRequest c a s).url = (UpdateProductRequest c a s p).url ∧
    (DeleteCatalogRequest c a s).url = c.baseURL ++ "/" ++ a.APIVersion ++ "/" ++ s ∧
    (DeleteCatalogRequest c a s).method = Method.delete ∧
    (DeleteProductRequest c a s).method = Method.delete ∧
    (UpdateProductRequest c a s p).method = Method.post :=
  ⟨rfl, rfl, rfl, rfl, rfl, rfl⟩

/-- C2: the partial-update body of `UpdateProduct` contains each of the
`name`, `currency`, `url`, `image_url` and `description` keys exactly
when the corresponding input field is non-empty (and then with that
value), and the `price` key exactly when the price is positive. -/
theorem updateProduct_omits_empty_fields (c : Client) (a : Account) (productID : String)
    (p : ProductInput) :
    (UpdateProductRequest c a productID p).body = some (UpdateProductBody p) ∧
    (UpdateProductBody p).lookup "name" = (if p.Name = "" then none else some p.Name) ∧
    (UpdateProductBody p).lookup "price" =
      (if 0 < p.Price then some (formatInt p.Price) else none) ∧
    (UpdateProductBody p).lookup "currency" =
      (if p.Currency = "" then none else some p.Currency) ∧
    (UpdateProductBody p).lookup "url" = (if p.URL = "" then none else some p.URL) ∧
    (UpdateProductBody p).lookup "image_url" =
      (if p.ImageURL = "" then none else some p.ImageURL) ∧
    (UpdateProductBody p).lookup "description" =
      (if p.Description = "" then none else some p.Description) := by
  refine ⟨rfl, ?_, ?_, ?_, ?_, ?_, ?_⟩ <;>
    (by_cases h1 : p.Name = "" <;> by_cases h2 : 0 < p.Price <;>
      by_cases h3 : p.Currency = "" <;> by_cases h4 : p.URL = "" <;>
      by_cases h5 : p.ImageURL = "" <;> by_cases h6 : p.Description = "" <;>
      simp [UpdateProductBody, h1, h2, h3, h4, h5, h6, List.lookup])

/-- C7: when the transport returns an error for the one request an
operation issues, the operation returns that error unchanged as a
`RequestError`, paired with its zero result, and the request trace
shows a single call — no retry, suppression, or partial result. -/
theorem transport_error_propagation (t : Transport) (c : Client) (a : Account)
    (name catalogID productID : String) (p : ProductInput) (e : String) :
    (t (CreateCatalogRequest c a name) = .error e →
      CreateCatalog t c a name =
        (("", some (.request e)), [CreateCatalogRequest c a name])) ∧
    (t (ListCatalogsRequest c a) = .error e →
      ListCatalogs t c a = (([], some (.request e)), [ListCatalogsRequest c a])) ∧
    (t (DeleteCatalogRequest c a catalogID) = .error e →
      DeleteCatalog t c a catalogID =
        (some (.request e), [DeleteCatalogRequest c a catalogID])) ∧
    (t (ListCatalogProductsRequest c a catalogID) = .error e →
      ListCatalogProducts t c a catalogID =
        (([], some (.request e)), [ListCatalogProductsRequest c a catalogID])) ∧
    (t (CreateProductRequest c a catalogID p) = .error e →
      CreateProduct t c a catalogID p =
        (("", some (.request e)), [CreateProductRequest c a catalogID p])) ∧
    (t (UpdateProductRequest c a productID p) = .error e →
      UpdateProduct t c a productID p =
        (some (.request e), [UpdateProductRequest c a productID p])) ∧
    (t (DeleteProductRequest c a productID) = .error e →
      DeleteProduct t c a productID =
        (some (.request e), [DeleteProductRequest c a productID])) := by
  refine ⟨?_, ?_, ?_, ?_, ?_, ?_, ?_⟩ <;>
    (intro h; simp [CreateCatalog, ListCatalogs, DeleteCatalog, ListCatalogProducts,
      CreateProduct, UpdateProduct, DeleteProduct, h])

/-- Witness for C7: a transport that fails every request with the
opaque error `boom` makes every operation return exactly that error. -/
theorem transport_error_propagation_witness :
    CreateCatalog exampleFailTransport exampleClient exampleAccount "My Catalog" =
      (("", some (.request "boom")),
        [CreateCatalogRequest exampleClient exampleAccount "My Catalog"]) ∧
    ListCatalogs exampleFailTransport exampleClient exampleAccount =
      (([], some (.request "boom")), [ListCatalogsRequest exampleClient exampleAccount]) ∧
    DeleteCatalog exampleFailTransport exampleClient exampleAccount "cat123" =
      (some (.request "boom"), [DeleteCatalogRequest exampleClient exampleAccount "cat123"]) ∧
    ListCatalogProducts exampleFailTransport exampleClient exampleAccount "cat123" =
      (([], some (.request "boom")),
        [ListCatalogProductsRequest exampleClient exampleAccount "cat123"]) ∧
    CreateProduct exampleFailTransport exampleClient exampleAccount "cat123" exampleInput =
      (("", some (.request "boom")),
        [CreateProductRequest exampleClient exampleAccount "cat123" exampleInput]) ∧
    UpdateProduct exampleFailTransport exampleClient exampleAccount "prod9" exampleInput =
      (some (.request "boom"),
        [UpdateProductRequest exampleClient exampleAccount "prod9" exampleInput]) ∧
    DeleteProduct exampleFailTransport exampleClient exampleAccount "prod9" =
      (some (.request "boom"), [DeleteProductRequest exampleClient exampleAccount "prod9"]) := by
  have h := transport_error_propagation exampleFailTransport exampleClient exampleAccount
    "My Catalog" "cat123" "prod9" exampleInput "boom"
  exact ⟨h.1 rfl, h.2.1 rfl, h.2.2.1 rfl, h.2.2.2.1 rfl, h.2.2.2.2.1 rfl,
    h.2.2.2.2.2.1 rfl, h.2.2.2.2.2.2 rfl⟩

/-- C8: a response body that is not valid JSON makes each decoding
operation return a `DecodeError` together with its zero result; the
functions are total, so no panic or crash is possible. -/
theorem malformed_json_decode_error (t : Transport) (c : Client) (a : Account)
    (name catalogID : String) (p : ProductInput) (msg : String) :
    (t (CreateCatalogRequest c a name) = .ok (.malformed msg) →
      CreateCatalog t c a name =
        (("", some (.decode ("failed to parse response: " ++ msg))),
          [CreateCatalogRequest c a name])) ∧
    (t (ListCatalogsRequest c a) = .ok (.malformed msg) →
      ListCatalogs t c a =
        (([], some (.decode ("failed to parse response: " ++ msg))),
          [ListCatalogsRequest c a])) ∧
    (t (ListCatalogProductsRequest c a catalogID) = .ok (.malformed msg) →
      ListCatalogProducts t c a catalogID =
        (([], some (.decode ("failed to parse response: " ++ msg))),
          [ListCatalogProductsRequest c a catalogID])) ∧
    (t (CreateProductRequest c a catalogID p) = .ok (.malformed msg) →
      CreateProduct t c a catalogID p =
        (("", some (.decode ("failed to parse response: " ++ msg))),
          [CreateProductRequest c a catalogID p])) := by
  refine ⟨?_, ?_, ?_, ?_⟩ <;>
    (intro h; simp [CreateCatalog, ListCatalogs, ListCatalogProducts, CreateProduct,
      unmarshalIDResponse, unmarshalDataResponse, h])

/-- Witness for C8: a transport answering with invalid JSON bytes makes
all four decoding operations fail with the wrapped parse error. -/
theorem malformed_json_decode_error_witness :
    CreateCatalog exampleMalformedTransport exampleClient exampleAccount "My Catalog" =
      (("", some (.decode ("failed to parse response: " ++ "unexpected end of JSON input"))),
        [CreateCatalogRequest exampleClient exampleAccount "My Catalog"]) ∧
    ListCatalogs exampleMalformedTransport exampleClient exampleAccount =
      (([], some (.decode ("failed to parse response: " ++ "unexpected end of JSON input"))),
        [ListCatalogsRequest exampleClient exampleAccount]) ∧
    ListCatalogProducts exampleMalformedTransport exampleClient exampleAccount "cat123" =
      (([], some (.decode ("failed to parse response: " ++ "unexpected end of JSON input"))),
        [ListCatalogProductsRequest exampleClient exampleAccount "cat123"]) ∧
    CreateProduct exampleMalformedTransport exampleClient exampleAccount "cat123" exampleInput =
      (("", some (.decode ("failed to parse response: " ++ "unexpected end of JSON input"))),
        [CreateProductRequest exampleClient exampleAccount "cat123" exampleInput]) := by
  have h := malformed_json_decode_error exampleMalformedTransport exampleClient exampleAccount
    "My Catalog" "cat123" exampleInput "unexpected end of JSON input"
  exact ⟨h.1 rfl, h.2.1 rfl, h.2.2.1 rfl, h.2.2.2 rfl⟩

/-- C9: a syntactically valid JSON object without an `id` field makes
`CreateCatalog` and `CreateProduct` return the empty identifier and no
error — the shape mismatch is reported as a success with an empty ID. -/
theorem missing_id_is_empty_success (t : Transport) (c : Client) (a : Account)
    (name catalogID : String) (p : ProductInput) (fields : List (String × Json)) :
    (jsonObjLookup fields "id" = none →
      t (CreateCatalogRequest c a name) = .ok (.json (.obj fields)) →
      CreateCatalog t c a name = (("", none), [CreateCatalogRequest c a name])) ∧
    (jsonObjLookup fields "id" = none →
      t (CreateProductRequest c a catalogID p) = .ok (.json (.obj fields)) →
      CreateProduct t c a catalogID p =
        (("", none), [CreateProductRequest c a catalogID p])) := by
  constructor <;>
    (intro hid ht; simp [CreateCatalog, CreateProduct, ht, unmarshalIDResponse, hid])

/-- Witness for C9 at the empty object `{}`. -/
theorem missing_id_is_empty_success_witness :
    CreateCatalog exampleEmptyObjTransport exampleClient exampleAccount "Cat2" =
      (("", none), [CreateCatalogRequest exampleClient exampleAccount "Cat2"]) ∧
    CreateProduct exampleEmptyObjTransport exampleClient exampleAccount "cat777" exampleInput =
      (("", none), [CreateProductRequest exampleClient exampleAccount "cat777" exampleInput]) := by
  have h := missing_id_is_empty_success exampleEmptyObjTransport exampleClient exampleAccount
    "Cat2" "cat777" exampleInput []
  exact ⟨h.1 rfl rfl, h.2 rfl rfl⟩

/-- C4 fails as stated: a syntactically valid JSON response without the
expected `id` shape — here the object `{}` — is reported by
`CreateCatalog` as a success with the empty identifier and no error,
not as a `DecodeError`. -/
theorem createCatalog_empty_object_counterexample :
    CreateCatalog exampleEmptyObjTransport exampleClient exampleAccount "My Catalog" =
      (("", none), [CreateCatalogRequest exampleClient exampleAccount "My Catalog"]) :=
  rfl

/-- C4 amended: `CreateCatalog` POSTs the body `{name}` to the catalogs
URL, decodes the response `id` field and returns it; it fails with a
`RequestError` exactly when the transport reports a failure or non-2xx
status, and with a `DecodeError` whenever the response body is not
valid JSON; a valid JSON object lacking the `id` field, however, is
reported as a success with the empty identifier. -/
theorem createCatalog_contract (t : Transport) (c : Client) (a : Account)
    (name e msg s : String) (fields : List (String × Json)) :
    (CreateCatalogRequest c a name).method = Method.post ∧
    (CreateCatalogRequest c a name).body = some [("name", name)] ∧
    (CreateCatalogRequest c a name).url = buildCatalogsURL c a ∧
    (t (CreateCatalogRequest c a name) = .error e →
      CreateCatalog t c a name =
        (("", some (.request e)), [CreateCatalogRequest c a name])) ∧
    (t (CreateCatalogRequest c a name) = .ok (.malformed msg) →
      CreateCatalog t c a name =
        (("", some (.decode ("failed to parse response: " ++ msg))),
          [CreateCatalogRequest c a name])) ∧
    (t (CreateCatalogRequest c a name) = .ok (.json (.obj fields)) →
      jsonObjLookup fields "id" = some (.str s) →
      CreateCatalog t c a name = ((s, none), [CreateCatalogRequest c a name])) ∧
    (t (CreateCatalogRequest c a name) = .ok (.json (.obj fields)) →
      jsonObjLookup fields "id" = none →
      CreateCatalog t c a name = (("", none), [CreateCatalogRequest c a name])) := by
  refine ⟨rfl, rfl, rfl, ?_, ?_, ?_, ?_⟩
  · intro h; simp [CreateCatalog, h]
  · intro h; simp [CreateCatalog, h, unmarshalIDResponse]
  · intro h hid; simp [CreateCatalog, h, unmarshalIDResponse, hid]
  · intro h hid; simp [CreateCatalog, h, unmarshalIDResponse, hid]

/-- Witness for the amended C4, exercising the transport-failure,
malformed-body, id-present and id-absent branches. -/
theorem createCatalog_contract_witness :
    CreateCatalog exampleFailTransport exampleClient exampleAccount "Cat3" =
      (("", some (.request "boom")),
        [CreateCatalogRequest exampleClient exampleAccount "Cat3"]) ∧
    CreateCatalog exampleMalformedTransport exampleClient exampleAccount "Cat3" =
      (("", some (.decode ("failed to parse response: " ++ "unexpected end of JSON input"))),
        [CreateCatalogRequest exampleClient exampleAccount "Cat3"]) ∧
    CreateCatalog exampleIdTransport exampleClient exampleAccount "Cat3" =
      (("pid_1", none), [CreateCatalogRequest exampleClient exampleAccount "Cat3"]) ∧
    CreateCatalog exampleEmptyObjTransport exampleClient exampleAccount "Cat3" =
      (("", none), [CreateCatalogRequest exampleClient exampleAccount "Cat3"]) := by
  have h1 := createCatalog_contract exampleFailTransport exampleClient exampleAccount
    "Cat3" "boom" "m" "s" []
  have h2 := createCatalog_contract exampleMalformedTransport exampleClient exampleAccount
    "Cat3" "e" "unexpected end of JSON input" "s" []
  have h3 := createCatalog_contract exampleIdTransport exampleClient exampleAccount
    "Cat3" "e" "m" "pid_1" [("id", Json.str "pid_1")]
  have h4 := createCatalog_contract exampleEmptyObjTransport exampleClient exampleAccount
    "Cat3" "e" "m" "s" []
  exact ⟨h1.2.2.2.1 rfl, h2.2.2.2.2.1 rfl, h3.2.2.2.2.2.1 rfl rfl,
    h4.2.2.2.2.2.2 rfl rfl⟩

end Whatomate
